import Mathlib

/-
Verification of the Snowflake/charting utility module (src/utils.py) against its
natural-language specification.  The module is stateless glue code: every function
is a single call into an external service wrapped with logging and exception
handling.  We embed each function shallowly: the outcome of each external call
(file system read, cursor execution, chart rendering) is an explicit argument,
and Python exceptions become `Except` errors.
-/

/-- A cell value of a tabular result (a pandas DataFrame cell). -/
inductive Val where
  | str (s : String)
  | int (n : Int)
deriving DecidableEq, Repr

/-- A tabular result: named columns and rows of cells (a pandas DataFrame).
`pd.DataFrame()` is `⟨[], []⟩`: no columns and no rows. -/
structure Table where
  cols : List String
  rows : List (List Val)
deriving DecidableEq, Repr

/-- The state of the fixed-path token file `/snowflake/session/token`:
absent, present and readable with some raw content, or present but
raising an error on read. -/
inductive TokenFile where
  | absent
  | readable (content : String)
  | unreadable (errMsg : String)
deriving DecidableEq, Repr

/-- The configuration read from environment variables at module load
(`os.getenv` returns an optional string). -/
structure Config where
  SNOWFLAKE_USER : Option String
  SNOWFLAKE_PASSWORD : Option String
  SNOWFLAKE_ACCOUNT : Option String
  SNOWFLAKE_WAREHOUSE : Option String
  SNOWFLAKE_DATABASE : Option String
  SNOWFLAKE_SCHEMA : Option String
  SNOWFLAKE_HOST : Option String
deriving DecidableEq, Repr

/-- Python `str.strip()` with no argument: remove leading and trailing
whitespace.  (Lean's own `String.trim` is defined through well-founded
recursion and does not reduce definitionally, so the strip is modelled
directly on the character list.) -/
def pyStrip (s : String) : String :=
  ⟨((s.data.dropWhile Char.isWhitespace).reverse.dropWhile Char.isWhitespace).reverse⟩

/-- Embedding of `get_login_token` (src/utils.py lines 57-72).
If the token file exists it is read and stripped (`f.read().strip()`);
a read failure re-raises (`Except.error`).  If the file is absent the
function returns `None`. -/
def get_login_token : TokenFile → Except String (Option String)
  | .absent => .ok none
  | .readable content => .ok (some (pyStrip content))
  | .unreadable e => .error e

/-- Connection parameters are a Python dict: an ordered association list from
key to value, where values are the optional strings from `os.getenv`. -/
def Params : Type := List (String × Option String)
deriving instance DecidableEq, Repr for Params

/-- The OAuth-branch dict literal of `get_connection_params`
(src/utils.py lines 84-92), in source order. -/
def oauth_params (cfg : Config) (token : String) : Params :=
  [("account", cfg.SNOWFLAKE_ACCOUNT),
   ("host", cfg.SNOWFLAKE_HOST),
   ("authenticator", some "oauth"),
   ("token", some token),
   ("warehouse", cfg.SNOWFLAKE_WAREHOUSE),
   ("database", cfg.SNOWFLAKE_DATABASE),
   ("schema", cfg.SNOWFLAKE_SCHEMA)]

/-- The username/password-branch dict literal of `get_connection_params`
(src/utils.py lines 95-103), in source order. -/
def password_params (cfg : Config) : Params :=
  [("account", cfg.SNOWFLAKE_ACCOUNT),
   ("host", cfg.SNOWFLAKE_HOST),
   ("user", cfg.SNOWFLAKE_USER),
   ("password", cfg.SNOWFLAKE_PASSWORD),
   ("warehouse", cfg.SNOWFLAKE_WAREHOUSE),
   ("database", cfg.SNOWFLAKE_DATABASE),
   ("schema", cfg.SNOWFLAKE_SCHEMA)]

/-- Embedding of `get_connection_params` (src/utils.py lines 74-103).
The Python guard `if token:` is false exactly when `token` is `None` or
the empty string, so an empty (trimmed) token falls through to the
username/password branch.  An exception from `get_login_token`
propagates. -/
def get_connection_params (fs : TokenFile) (cfg : Config) : Except String Params :=
  match get_login_token fs with
  | .error e => .error e
  | .ok none => .ok (password_params cfg)
  | .ok (some token) =>
      if token = "" then .ok (password_params cfg)
      else .ok (oauth_params cfg token)

/-- Dict key membership, as a boolean. -/
def hasKey (ps : Params) (k : String) : Bool :=
  ps.any (fun p => p.1 == k)

/-- Dict lookup: the value stored at a key, if the key is present. -/
def lookupParam (ps : Params) (k : String) : Option (Option String) :=
  (ps.find? (fun p => p.1 == k)).map (fun p => p.2)

/-- Outcome of executing a SQL query on a cursor: either an exception
with its message, or the fetched rows together with the column names
from `cursor.description`. -/
inductive QueryOutcome where
  | ok (result : List (List Val)) (columns : List String)
  | err (msg : String)
deriving DecidableEq, Repr

/-- Embedding of `query_snowflake` (src/utils.py lines 145-163).
On success with no rows it returns `pd.DataFrame()` — a table with no
columns and no rows, discarding `columns`.  On success with rows it
returns `pd.DataFrame(result, columns=columns)`.  On any exception it
returns `pd.DataFrame(\x7b"Error": [str(e)]\x7d)`: one column named
"Error" holding one row with the message. -/
def query_snowflake : QueryOutcome → Table
  | .ok result columns =>
      if result = [] then ⟨[], []⟩
      else ⟨columns, result⟩
  | .err e => ⟨["Error"], [[Val.str e]]⟩

/-- Outcome of the fixed metadata introspection query: either an
exception, or the flat rows (TABLE_NAME, COLUMN_NAME, DATA_TYPE). -/
inductive MetaOutcome where
  | ok (metadata_rows : List (String × String × String))
  | err (msg : String)
deriving DecidableEq, Repr

/-- Insert a key/value pair into an insertion-ordered dict: a later
duplicate key overwrites the value in place, as in a Python dict
comprehension. -/
def dictInsert (m : List (String × String)) (k v : String) : List (String × String) :=
  if m.any (fun p => p.1 == k) then
    m.map (fun p => if p.1 == k then (k, v) else p)
  else m ++ [(k, v)]

/-- The inner dict comprehension of the metadata reshape:
column name to data type, in row order. -/
def colTypeDict (pairs : List (String × String)) : List (String × String) :=
  pairs.foldl (fun m p => dictInsert m p.1 p.2) []

/-- Insert a string into a sorted list (pandas `groupby` sorts group keys). -/
def insertSorted (x : String) : List String → List String
  | [] => [x]
  | y :: ys => if x < y then x :: y :: ys else y :: insertSorted x ys

/-- Sort a list of strings ascending. -/
def sortNames (l : List String) : List String :=
  l.foldr insertSorted []

/-- The reshape of `get_snowflake_metadata` (src/utils.py lines 132-138):
group the flat rows by TABLE_NAME (group keys sorted, as pandas `groupby`
does) and map each table to its column-to-type dict. -/
def reshape_metadata (rows : List (String × String × String)) :
    List (String × List (String × String)) :=
  (sortNames (rows.map (fun r => r.1)).eraseDups).map
    (fun t => (t, colTypeDict ((rows.filter (fun r => r.1 == t)).map
      (fun r => (r.2.1, r.2.2)))))

/-- Embedding of `get_snowflake_metadata` (src/utils.py lines 115-143).
With no rows it returns the empty dict; with rows it returns the nested
mapping; on any exception inside the `try` block (the query or the
reshape) it returns `None`. -/
def get_snowflake_metadata : MetaOutcome → Option (List (String × List (String × String)))
  | .ok metadata_rows =>
      if metadata_rows = [] then some []
      else some (reshape_metadata metadata_rows)
  | .err _ => none

/-- Embedding of `visual_generate` (src/utils.py lines 165-188),
parameterised over the chart rendering backend (`px.bar` followed by
`pio.to_html`), which may raise.  `df.empty` holds when either axis has
length zero.  Any rendering exception is swallowed and the empty string
returned. -/
def visual_generate (render : Table → String → String → String → Except String String)
    (query : String) (data : Table) (response : String) : String :=
  if data.rows = [] ∨ data.cols = [] ∨ data.cols.length < 2 then ""
  else
    match data.cols with
    | x :: y :: _ =>
        match render data x y response with
        | .ok html_str => html_str
        | .error _ => ""
    | _ => ""

/-- Modelled from the spec: the chart rendering backend (plotly `px.bar`
followed by `pio.to_html`) is external library code, not part of this
repository.  Per the spec (sections 4.5 and 8) a successful render yields a
non-empty embeddable markup fragment containing the axis column labels and
the caller-supplied title. -/
def render_bar_html (df : Table) (x y title : String) : Except String String :=
  .ok ("<div>" ++ x ++ "|" ++ y ++ "|" ++ title ++ "</div>")

/-- A concrete sample configuration, used for closed witnesses. -/
def cfg₀ : Config :=
  ⟨some "user0", some "pw0", some "acct", some "wh", some "db", some "sch", some "host"⟩

/-- A concrete two-column, two-row table: rows ("A",10),("B",20) with
columns "label","value", the example from the spec. -/
def exampleTable : Table :=
  ⟨["label", "value"], [[Val.str "A", Val.int 10], [Val.str "B", Val.int 20]]⟩

/-- Claim C1 (counterexample): the token file exists and is readable, yet —
its content trimming to the empty string — the returned mapping is the
username/password one: it contains a "password" key and no "token" key,
refuting the claim as stated. -/
theorem C1_counterexample :
    get_connection_params (TokenFile.readable " ") cfg₀ = .ok (password_params cfg₀) ∧
    hasKey (password_params cfg₀) "password" = true ∧
    hasKey (password_params cfg₀) "token" = false :=
  ⟨rfl, by decide, by decide⟩

/-- Claim C1 (amended): if the token file exists, is readable, and its
trimmed content is non-empty, the returned mapping holds the trimmed token
and an "oauth" authenticator and no "password"/"user" key; if the file is
absent the mapping holds "user" and "password" and no
"token"/"authenticator" key. -/
theorem C1_connection_params_selection (content : String) (cfg : Config)
    (h : pyStrip content ≠ "") :
    get_connection_params (TokenFile.readable content) cfg
      = .ok (oauth_params cfg (pyStrip content)) ∧
    lookupParam (oauth_params cfg (pyStrip content)) "token" = some (some (pyStrip content)) ∧
    lookupParam (oauth_params cfg (pyStrip content)) "authenticator" = some (some "oauth") ∧
    hasKey (oauth_params cfg (pyStrip content)) "password" = false ∧
    hasKey (oauth_params cfg (pyStrip content)) "user" = false ∧
    get_connection_params TokenFile.absent cfg = .ok (password_params cfg) ∧
    hasKey (password_params cfg) "user" = true ∧
    hasKey (password_params cfg) "password" = true ∧
    hasKey (password_params cfg) "token" = false ∧
    hasKey (password_params cfg) "authenticator" = false := by
  refine ⟨?_, rfl, rfl, rfl, rfl, rfl, rfl, rfl, rfl, rfl⟩
  simp [get_connection_params, get_login_token, h]

/-- Claim C1 (witness): the amended statement at the readable content
"tok" followed by a newline, which trims to the non-empty "tok". -/
theorem C1_connection_params_selection_witness :
    (pyStrip "tok\n" ≠ "") ∧
    (get_connection_params (TokenFile.readable "tok\n") cfg₀
       = .ok (oauth_params cfg₀ (pyStrip "tok\n")) ∧
     lookupParam (oauth_params cfg₀ (pyStrip "tok\n")) "token" = some (some (pyStrip "tok\n")) ∧
     lookupParam (oauth_params cfg₀ (pyStrip "tok\n")) "authenticator" = some (some "oauth") ∧
     hasKey (oauth_params cfg₀ (pyStrip "tok\n")) "password" = false ∧
     hasKey (oauth_params cfg₀ (pyStrip "tok\n")) "user" = false ∧
     get_connection_params TokenFile.absent cfg₀ = .ok (password_params cfg₀) ∧
     hasKey (password_params cfg₀) "user" = true ∧
     hasKey (password_params cfg₀) "password" = true ∧
     hasKey (password_params cfg₀) "token" = false ∧
     hasKey (password_params cfg₀) "authenticator" = false) :=
  ⟨by decide, C1_connection_params_selection "tok\n" cfg₀ (by decide)⟩

/-- Claim C2 (counterexample): a query that succeeds with zero rows and a
cursor description naming column "A" yields a table whose column headers
are not ["A"]: the headers are discarded. -/
theorem C2_counterexample :
    (query_snowflake (QueryOutcome.ok [] ["A"])).cols ≠ ["A"] := by
  decide

/-- Claim C2 (amended): for every query that succeeds with zero rows,
query_snowflake returns the table with zero rows and zero columns
(pd.DataFrame()); the column names from the cursor description are
discarded. -/
theorem C2_empty_result_drops_columns (columns : List String) :
    query_snowflake (QueryOutcome.ok [] columns) = ⟨[], []⟩ := rfl

/-- Claim C3: when execution raises, query_snowflake returns (rather than
propagating) a table with the single column "Error" and a single row
holding the error message. -/
theorem C3_error_as_data (e : String) :
    query_snowflake (QueryOutcome.err e) = ⟨["Error"], [[Val.str e]]⟩ ∧
    (query_snowflake (QueryOutcome.err e)).cols.length = 1 ∧
    (query_snowflake (QueryOutcome.err e)).rows.length = 1 :=
  ⟨rfl, rfl, rfl⟩

/-- Claim C4: when the metadata query succeeds with zero rows,
get_snowflake_metadata returns the empty mapping, not the null result. -/
theorem C4_metadata_empty_mapping :
    get_snowflake_metadata (MetaOutcome.ok []) = some [] ∧
    get_snowflake_metadata (MetaOutcome.ok []) ≠ none := by
  refine ⟨rfl, by decide⟩

/-- Claim C5: when the metadata query (or the reshape inside the same try
block) raises, get_snowflake_metadata swallows the error and returns the
null result, which differs from the empty mapping returned on zero rows. -/
theorem C5_metadata_error_null (msg : String) :
    get_snowflake_metadata (MetaOutcome.err msg) = none ∧
    get_snowflake_metadata (MetaOutcome.err msg)
      ≠ get_snowflake_metadata (MetaOutcome.ok []) := by
  refine ⟨rfl, ?_⟩
  simp [get_snowflake_metadata]

/-- Claim C6: when the token file exists but reading it raises, the error
propagates out of get_login_token and out of get_connection_params: no
fallback to username/password and no null token. -/
theorem C6_token_read_error_propagates (e : String) (cfg : Config) :
    get_login_token (TokenFile.unreadable e) = .error e ∧
    get_connection_params (TokenFile.unreadable e) cfg = .error e :=
  ⟨rfl, rfl⟩

/-- Claim C7: for every table with fewer than two columns (in particular
exactly one column), visual_generate returns the empty string, for any
rendering backend. -/
theorem C7_few_columns_empty_string
    (render : Table → String → String → String → Except String String)
    (query : String) (data : Table) (response : String)
    (h : data.cols.length < 2) :
    visual_generate render query data response = "" := by
  unfold visual_generate
  rw [if_pos (Or.inr (Or.inr h))]

/-- Claim C7 (witness): the one-column, one-row table. -/
theorem C7_few_columns_empty_string_witness :
    (Table.mk ["only"] [[Val.int 1]]).cols.length < 2 ∧
    visual_generate render_bar_html "q" (Table.mk ["only"] [[Val.int 1]]) "t" = "" :=
  ⟨by decide,
   C7_few_columns_empty_string render_bar_html "q" ⟨["only"], [[Val.int 1]]⟩ "t" (by decide)⟩

/-- Claim C8: for every non-empty table with at least two columns, under
the spec-modelled rendering backend, visual_generate returns a non-empty
markup string that contains the caller-supplied title and the first
column's label. -/
theorem C8_render_contains_title (query response : String) (data : Table)
    (h1 : data.rows ≠ []) (h2 : 2 ≤ data.cols.length) :
    visual_generate render_bar_html query data response ≠ "" ∧
    (∃ p s, visual_generate render_bar_html query data response
       = p ++ response ++ s) ∧
    (∃ p s, visual_generate render_bar_html query data response
       = p ++ data.cols.headD "" ++ s) := by
  obtain ⟨cols, rows⟩ := data
  match cols, h2 with
  | x :: y :: cs, _ =>
    have hc : visual_generate render_bar_html query ⟨x :: y :: cs, rows⟩ response
        = "<div>" ++ x ++ "|" ++ y ++ "|" ++ response ++ "</div>" := by
      unfold visual_generate
      rw [if_neg]
      · rfl
      · rintro (ha | hb | hl)
        · exact h1 ha
        · exact List.cons_ne_nil x (y :: cs) hb
        · omega
    rw [hc]
    refine ⟨?_, ⟨"<div>" ++ x ++ "|" ++ y ++ "|", "</div>", rfl⟩, ?_⟩
    · intro h
      have h' := congrArg String.length h
      simp only [String.length_append] at h'
      have h5 : ("<div>" : String).length = 5 := rfl
      have h6 : ("</div>" : String).length = 6 := rfl
      have h0 : ("" : String).length = 0 := rfl
      omega
    · refine ⟨"<div>", "|" ++ y ++ "|" ++ response ++ "</div>", ?_⟩
      show _ = _
      simp only [List.headD_cons]
      simp only [String.append_assoc]

/-- Claim C8 (witness): the spec's example table, rows ("A",10),("B",20)
with columns "label","value": the output is non-empty and contains the
title "My Chart" and the first column label "label". -/
theorem C8_render_contains_title_witness :
    exampleTable.rows ≠ [] ∧ 2 ≤ exampleTable.cols.length ∧
    (visual_generate render_bar_html "q" exampleTable "My Chart" ≠ "" ∧
     (∃ p s, visual_generate render_bar_html "q" exampleTable "My Chart"
        = p ++ "My Chart" ++ s) ∧
     (∃ p s, visual_generate render_bar_html "q" exampleTable "My Chart"
        = p ++ exampleTable.cols.headD "" ++ s)) :=
  ⟨by decide, by decide,
   C8_render_contains_title "q" "My Chart" exampleTable (by decide) (by decide)⟩

/-- Claim C9: when the token file exists, is readable, and its content
trims to the empty string, get_connection_params returns the
username/password mapping: no token, no oauth authenticator. -/
theorem C9_empty_trimmed_token_falls_back (content : String) (cfg : Config)
    (h : pyStrip content = "") :
    get_connection_params (TokenFile.readable content) cfg = .ok (password_params cfg) ∧
    hasKey (password_params cfg) "token" = false ∧
    hasKey (password_params cfg) "authenticator" = false ∧
    hasKey (password_params cfg) "user" = true ∧
    hasKey (password_params cfg) "password" = true := by
  refine ⟨?_, rfl, rfl, rfl, rfl⟩
  simp [get_connection_params, get_login_token, h]

/-- Claim C9 (witness): whitespace-only token file content. -/
theorem C9_empty_trimmed_token_falls_back_witness :
    (pyStrip " \n " = "") ∧
    (get_connection_params (TokenFile.readable " \n ") cfg₀ = .ok (password_params cfg₀) ∧
     hasKey (password_params cfg₀) "token" = false ∧
     hasKey (password_params cfg₀) "authenticator" = false ∧
     hasKey (password_params cfg₀) "user" = true ∧
     hasKey (password_params cfg₀) "password" = true) :=
  ⟨by decide, C9_empty_trimmed_token_falls_back " \n " cfg₀ (by decide)⟩

/-- Claim C10: for every table with zero rows, visual_generate returns the
empty string no matter how many columns the table has, for any rendering
backend. -/
theorem C10_empty_rows_empty_string
    (render : Table → String → String → String → Except String String)
    (query : String) (data : Table) (response : String)
    (h : data.rows = []) :
    visual_generate render query data response = "" := by
  unfold visual_generate
  rw [if_pos (Or.inl h)]

/-- Claim C10 (witness): a zero-row table with two columns. -/
theorem C10_empty_rows_empty_string_witness :
    (Table.mk ["a", "b"] []).rows = [] ∧
    visual_generate render_bar_html "q" (Table.mk ["a", "b"] []) "t" = "" :=
  ⟨rfl, C10_empty_rows_empty_string render_bar_html "q" ⟨["a", "b"], []⟩ "t" rfl⟩
